import Mathlib

/-!
# Verification of proxylib's request-handler composition model

A shallow embedding of the handler combinators of the `proxylib` crate:

* `AddrLookupFilter` / `FilterLogic` — the address-set admission predicate
  (src/handlers/filter.rs and src/handlers.rs);
* `Filter` — the admission decorator around an inner `RequestHandler`
  (both revisions: the one carrying the rejected request in the error,
  and the one with an optional rejection callback);
* `Redirect` / `ChangeAuthority` — the URI-rewriting terminal handler
  (src/handlers/redirect.rs and src/handlers.rs).

Rust futures are modelled by a pair of a suspension count and the value the
future eventually resolves to (`ready x` has zero suspensions; `Map` does not
add suspensions).  A Rust panic (`unwrap` on `Err`) is modelled by `none`.
The behaviour of the external `http` crate's `Uri::into_parts` /
`Uri::from_parts`, which `ChangeAuthority::change_uri` relies on, is embedded
from that crate's documented semantics (see the doc comments below).
-/

namespace Proxylib

/-- Model of `std::net::SocketAddr`: an opaque address identity plus a port.
Equality is exact (address + port), as in the source. -/
structure SocketAddr where
  ip : Nat
  port : Nat
deriving DecidableEq, Repr

/-- Model of `hyper::Uri` (the `http` crate's internal representation):
a scheme that may be absent, an authority that may be absent, and a
path-and-query string (possibly empty; the `http` crate stores path and
query together in one `PathAndQuery` component). -/
structure Uri where
  scheme : Option String
  authority : Option String
  pathAndQuery : String
deriving DecidableEq, Repr

/-- Model of `http::uri::Parts`, the result of `Uri::into_parts`. -/
structure UriParts where
  scheme : Option String
  authority : Option String
  path_and_query : Option String
deriving DecidableEq, Repr

/-- The `http` crate's `Uri::has_path`: true when the stored path-and-query
data is nonempty or a scheme is present. -/
def Uri.hasPath (u : Uri) : Bool :=
  u.pathAndQuery ≠ "" || u.scheme.isSome

/-- Model of `Uri::into_parts` (the `http` crate's `From<Uri> for Parts`):
the path-and-query is kept only when `has_path` holds; absent scheme and
authority become `None`. -/
def Uri.intoParts (u : Uri) : UriParts :=
  { scheme := u.scheme
  , authority := u.authority
  , path_and_query := if u.hasPath then some u.pathAndQuery else none }

/-- The error kinds `http::uri::Uri::from_parts` can report. -/
inductive InvalidUriParts where
  | AuthorityMissing
  | PathAndQueryMissing
  | SchemeMissing
deriving DecidableEq, Repr

/-- Model of `Uri::from_parts`: a scheme requires both an authority and a
path-and-query; without a scheme, an authority together with a
path-and-query is rejected.  Missing components default to empty. -/
def Uri.fromParts (p : UriParts) : Except InvalidUriParts Uri :=
  if p.scheme.isSome then
    if p.authority.isNone then .error .AuthorityMissing
    else if p.path_and_query.isNone then .error .PathAndQueryMissing
    else .ok ⟨p.scheme, p.authority, p.path_and_query.getD ""⟩
  else if p.authority.isSome && p.path_and_query.isSome then .error .SchemeMissing
  else .ok ⟨p.scheme, p.authority, p.path_and_query.getD ""⟩

/-- Model of `hyper::http::uri::Authority` (host\[:port\]) as its string form. -/
def Authority := String
deriving instance DecidableEq, Repr for Authority

/-- `ChangeAuthority::change_uri` (src/handlers/redirect.rs lines 61–67, and
inlined in `Redirect::handle` of src/handlers.rs lines 28–35):
decompose the URI into parts, overwrite the authority with the configured
destination, and reassemble with `Uri::from_parts(..).unwrap()`.
The `unwrap` panic on a malformed combination of parts is modelled by
`none`. -/
def ChangeAuthority.change_uri (dest : Authority) (uri : Uri) : Option Uri :=
  let uri_parts := uri.intoParts
  let uri_parts := { uri_parts with authority := some dest }
  (Uri.fromParts uri_parts).toOption

/-- Model of `http::request::Parts`: every component of a request other
than the body.  `extensions` is kept abstract as a list of opaque tags. -/
structure RequestParts where
  method : String
  uri : Uri
  version : Nat
  headers : List (String × String)
  extensions : List String
deriving DecidableEq, Repr

/-- Model of `hyper::Request<Body>`: its parts plus the body.
`Request::into_parts` and `Request::from_parts` are the two projections of
this pairing. -/
structure Request where
  parts : RequestParts
  body : String
deriving DecidableEq, Repr

/-- Model of `hyper::Response<Body>`. -/
structure Response where
  status : Nat
  body : String
deriving DecidableEq, Repr

/-- Model of `hyper::Error`. -/
structure HyperError where
  msg : String
deriving DecidableEq, Repr

/-- Model of a Rust future: the number of suspension points it goes
through before resolving, and the value it resolves to. -/
structure Fut (α : Type) where
  suspensions : Nat
  value : α
deriving DecidableEq, Repr

/-- Model of `std::future::ready`: resolves immediately, no suspension. -/
def Fut.ready (x : α) : Fut α := ⟨0, x⟩

/-- Model of `futures::future::Map` as produced by `FutureExt::map`: maps
the resolved value and adds no suspension point of its own. -/
def Fut.map (fut : Fut α) (f : α → β) : Fut β := ⟨fut.suspensions, f fut.value⟩

/-- Model of `hyper::Client<HttpConnector>`: issuing a request yields a
`ResponseFuture` resolving to a response or a `hyper::Error`. -/
structure Client where
  request : Request → Fut (Except HyperError Response)

/-- Model of the `RedirectLogic` capability (`change_uri(&self, &mut Uri)`):
a URI transformation; `none` models a panic inside the logic (as
`ChangeAuthority`'s `unwrap` can). -/
def RedirectLogic := Uri → Option Uri

/-- The request `Redirect::handle` builds for the outbound client
(src/handlers/redirect.rs lines 39–51, src/handlers.rs lines 22–36):
`into_parts` the request, let the logic rewrite `parts.uri` in place, and
`from_parts` the rewritten parts with the untouched body. -/
def Redirect.outboundRequest (logic : RedirectLogic) (request : Request) :
    Option Request :=
  match logic request.parts.uri with
  | some u => some ⟨{ request.parts with uri := u }, request.body⟩
  | none => none

/-- `Redirect::handle`: issue the rewritten request through the shared
outbound client and return that client call's future as the result
(`none` models a panic of the rewrite logic). -/
def Redirect.handle (logic : RedirectLogic) (_from_addr : SocketAddr)
    (request : Request) (client : Client) :
    Option (Fut (Except HyperError Response)) :=
  (Redirect.outboundRequest logic request).map client.request

/-- Model of `futures::future::Either`, the unified output type of
`Filter::handle` (left: delegated, mapped inner future; right: immediately
ready future). -/
inductive Either (α : Type) (β : Type) where
  | left (a : α)
  | right (b : β)
deriving DecidableEq, Repr

/-- `AddrLookupFilter` (src/handlers/filter.rs, src/handlers.rs): a set of
known socket addresses (the `HashSet` is modelled by its element list) and
the whitelist/blacklist mode flag. -/
structure AddrLookupFilter where
  list : List SocketAddr
  is_blacklist : Bool

/-- `AddrLookupFilter::filter` (src/handlers/filter.rs lines 100–104,
src/handlers.rs lines 69–73): `self.is_blacklist != self.list.contains(&from_addr)`;
the request argument is ignored. -/
def AddrLookupFilter.filter (f : AddrLookupFilter) (from_addr : SocketAddr)
    (_ : Request) : Bool :=
  f.is_blacklist != f.list.contains from_addr

/-- The error type of `Filter` as `RequestHandler`
(src/handlers/filter.rs): either the inner handler's error, or the
filtered-out case carrying the rejecting address and the original
request. -/
inductive FilterError (ε : Type) where
  | Inner (e : ε)
  | FilteredOut (addr : SocketAddr) (request : Request)
deriving DecidableEq, Repr

/-- The result type of a `Filter`'s future. -/
def FilterResult (ε : Type) := Except (FilterError ε) Response

/-- `Filter` (src/handlers/filter.rs lines 33–38): an inner handler
(modelled by its `handle` function) and the `FilterLogic` admission
predicate (`filter(&self, SocketAddr, &Request) -> bool`). -/
structure Filter (ε : Type) where
  inner : SocketAddr → Request → Client → Fut (Except ε Response)
  logic : SocketAddr → Request → Bool

/-- `Filter::handle` (src/handlers/filter.rs lines 64–83): evaluate the
admission predicate; on admission delegate to the inner handler and map
its error through `FilterError::Inner`; on rejection return an
immediately ready `FilteredOut` error carrying the address and the
request. -/
def Filter.handle (filt : Filter ε) (from_addr : SocketAddr)
    (request : Request) (client : Client) :
    Either (Fut (FilterResult ε)) (Fut (FilterResult ε)) :=
  if filt.logic from_addr request then
    .left ((filt.inner from_addr request client).map
      (fun res => res.mapError FilterError.Inner))
  else
    .right (Fut.ready (.error (.FilteredOut from_addr request)))

/-- The value an `Either` of two futures resolves to. -/
def eitherValue : Either (Fut α) (Fut α) → α
  | .left f => f.value
  | .right f => f.value

/-- The number of suspension points of an `Either` of two futures. -/
def eitherSuspensions : Either (Fut α) (Fut α) → Nat
  | .left f => f.suspensions
  | .right f => f.suspensions

/-- The error type of the earlier `Filter` revision (src/handlers.rs
lines 99–105): its `FilteredOut` carries only the rejecting address. -/
inductive FilterErrorV0 (ε : Type) where
  | Inner (e : ε)
  | FilteredOut (addr : SocketAddr)
deriving DecidableEq, Repr

/-- The result type of the earlier `Filter` revision's future. -/
def FilterResultV0 (ε : Type) := Except (FilterErrorV0 ε) Response

/-- The earlier `Filter` revision (src/handlers.rs lines 54–62): inner
handler, admission predicate, and an optional rejection callback
`handle_blocked : Option<G>` with `G : Fn(SocketAddr, Request<Body>)`.
The callback returns unit, so it is modelled by its presence; the
arguments it is invoked with are recorded in the trace returned by
`handle`. -/
structure FilterV0 (ε : Type) where
  inner : SocketAddr → Request → Client → Fut (Except ε Response)
  request_filter : SocketAddr → Request → Bool
  handle_blocked : Option Unit

/-- The earlier `Filter::handle` (src/handlers.rs lines 122–141): as the
newer revision, except that on rejection the optional callback is invoked
with `(from_addr, request)` before the ready error — which carries only
the address — is returned.  The second component is the trace of callback
invocations with their arguments. -/
def FilterV0.handle (filt : FilterV0 ε) (from_addr : SocketAddr)
    (request : Request) (client : Client) :
    Either (Fut (FilterResultV0 ε)) (Fut (FilterResultV0 ε)) ×
      List (SocketAddr × Request) :=
  if filt.request_filter from_addr request then
    (.left ((filt.inner from_addr request client).map
      (fun res => res.mapError FilterErrorV0.Inner)), [])
  else
    match filt.handle_blocked with
    | some _ =>
      (.right (Fut.ready (.error (.FilteredOut from_addr))), [(from_addr, request)])
    | none =>
      (.right (Fut.ready (.error (.FilteredOut from_addr))), [])

end Proxylib

namespace Proxylib

/-! ## Theorems about `ChangeAuthority::change_uri` -/

/-- C4: for every URI on which the rewrite is defined,
`ChangeAuthority::change_uri` replaces only the authority component with the
configured destination, leaving the scheme and the path-and-query
(path plus query) components unchanged. -/
theorem changeAuthority_replaces_only_authority
    (dest : Authority) (uri u' : Uri)
    (h : ChangeAuthority.change_uri dest uri = some u') :
    u'.scheme = uri.scheme ∧ u'.pathAndQuery = uri.pathAndQuery ∧
      u'.authority = some dest := by
  unfold ChangeAuthority.change_uri Uri.fromParts Uri.intoParts Uri.hasPath at h
  cases hs : uri.scheme with
  | some s =>
    simp [hs, Except.toOption] at h
    simp [← h]
  | none =>
    by_cases hp : uri.pathAndQuery = ""
    · simp [hs, hp, Except.toOption] at h
      simp [← h, hp]
    · simp [hs, hp, Except.toOption] at h

/-- C5: the rewrite of `ChangeAuthority` fails hard (models the `unwrap`
panic as `none`, not a typed error value) exactly when `Uri::from_parts`
rejects the reassembled parts; and for every input URI that contains a
scheme component the reconstruction succeeds, so the failing branch is
unreachable. -/
theorem changeAuthority_fail_hard (dest : Authority) (uri : Uri) :
    (uri.scheme.isSome → (ChangeAuthority.change_uri dest uri).isSome) ∧
    (∀ e, Uri.fromParts { uri.intoParts with authority := some dest } = .error e →
      ChangeAuthority.change_uri dest uri = none) := by
  constructor
  · intro hs
    unfold ChangeAuthority.change_uri Uri.fromParts Uri.intoParts Uri.hasPath
    simp [hs, Except.toOption]
  · intro e he
    unfold ChangeAuthority.change_uri
    simp only [he, Except.toOption]

/-- C5 witness: a URI with a scheme is rewritten successfully, while a
scheme-less URI with a nonempty path (whose reassembly `from_parts`
rejects with `SchemeMissing`) makes the rewrite fail hard. -/
theorem changeAuthority_fail_hard_witness :
    (ChangeAuthority.change_uri "new.example"
        ⟨some "http", some "old.example", "/p"⟩).isSome ∧
    ChangeAuthority.change_uri "new.example" ⟨none, none, "/p"⟩ = none :=
  ⟨(changeAuthority_fail_hard "new.example"
      ⟨some "http", some "old.example", "/p"⟩).1 (by decide),
    (changeAuthority_fail_hard "new.example" ⟨none, none, "/p"⟩).2
      .SchemeMissing rfl⟩

/-- C8: the rewrite is idempotent where defined — if
`ChangeAuthority::change_uri` with destination `dest` maps `uri` to `u1`,
applying it again with the same destination maps `u1` to `u1`. -/
theorem changeAuthority_idempotent (dest : Authority) (uri u1 : Uri)
    (h : ChangeAuthority.change_uri dest uri = some u1) :
    ChangeAuthority.change_uri dest u1 = some u1 := by
  unfold ChangeAuthority.change_uri Uri.fromParts Uri.intoParts Uri.hasPath at h ⊢
  cases hs : uri.scheme with
  | some s =>
    simp [hs, Except.toOption] at h
    simp [← h, Except.toOption]
  | none =>
    by_cases hp : uri.pathAndQuery = ""
    · simp [hs, hp, Except.toOption] at h
      simp [← h, Except.toOption]
    · simp [hs, hp, Except.toOption] at h

/-- C8 witness: idempotence at a concrete URI and destination. -/
theorem changeAuthority_idempotent_witness :
    ChangeAuthority.change_uri "new.example"
        ⟨some "http", some "new.example", "/a/b?q=1"⟩ =
      some ⟨some "http", some "new.example", "/a/b?q=1"⟩ :=
  changeAuthority_idempotent "new.example"
    ⟨some "http", some "old.example", "/a/b?q=1"⟩
    ⟨some "http", some "new.example", "/a/b?q=1"⟩ (by decide)

/-- C4 witness: the spec's concrete instance.  Input target
http://old.example/a/b?q=1 with configured destination new.example yields
output target http://new.example/a/b?q=1, and the non-authority components
are exactly preserved. -/
theorem changeAuthority_replaces_only_authority_witness :
    ChangeAuthority.change_uri "new.example"
        ⟨some "http", some "old.example", "/a/b?q=1"⟩ =
      some ⟨some "http", some "new.example", "/a/b?q=1"⟩ ∧
    ((⟨some "http", some "new.example", "/a/b?q=1"⟩ : Uri).scheme =
        (⟨some "http", some "old.example", "/a/b?q=1"⟩ : Uri).scheme ∧
      (⟨some "http", some "new.example", "/a/b?q=1"⟩ : Uri).pathAndQuery =
        (⟨some "http", some "old.example", "/a/b?q=1"⟩ : Uri).pathAndQuery ∧
      (⟨some "http", some "new.example", "/a/b?q=1"⟩ : Uri).authority =
        some "new.example") :=
  ⟨by decide,
    changeAuthority_replaces_only_authority "new.example"
      ⟨some "http", some "old.example", "/a/b?q=1"⟩
      ⟨some "http", some "new.example", "/a/b?q=1"⟩ (by decide)⟩

/-! ## Theorems about `Redirect::handle` -/

/-- C7: whenever the rewrite is defined, `Redirect::handle` returns the
outbound client's future for the rewritten request directly and unchanged
— the same `Fut (Except HyperError Response)` value, so the failure kind
is exactly the client's `hyper::Error` and no failure of Redirect's own is
introduced. -/
theorem redirect_handle_returns_client_future (logic : RedirectLogic)
    (from_addr : SocketAddr) (request req' : Request) (client : Client)
    (h : Redirect.outboundRequest logic request = some req') :
    Redirect.handle logic from_addr request client = some (client.request req') := by
  unfold Redirect.handle
  rw [h]
  rfl

/-- C7 witness: with `ChangeAuthority` logic, a concrete address, request
and client, `handle` is exactly the client's future for the rewritten
request. -/
theorem redirect_handle_returns_client_future_witness :
    Redirect.handle (ChangeAuthority.change_uri "new.example") ⟨127, 9000⟩
        ⟨⟨"GET", ⟨some "http", some "old.example", "/a/b?q=1"⟩, 11,
          [("host", "old.example")], []⟩, "payload"⟩
        ⟨fun r => Fut.ready (.error ⟨r.parts.method⟩)⟩ =
      some ((⟨fun r => Fut.ready (.error ⟨r.parts.method⟩)⟩ : Client).request
        ⟨⟨"GET", ⟨some "http", some "new.example", "/a/b?q=1"⟩, 11,
          [("host", "old.example")], []⟩, "payload"⟩) :=
  redirect_handle_returns_client_future
    (ChangeAuthority.change_uri "new.example") ⟨127, 9000⟩
    ⟨⟨"GET", ⟨some "http", some "old.example", "/a/b?q=1"⟩, 11,
      [("host", "old.example")], []⟩, "payload"⟩
    ⟨⟨"GET", ⟨some "http", some "new.example", "/a/b?q=1"⟩, 11,
      [("host", "old.example")], []⟩, "payload"⟩
    ⟨fun r => Fut.ready (.error ⟨r.parts.method⟩)⟩ (by decide)

/-- C10: the request `Redirect::handle` forwards to the outbound client
keeps exactly the method, headers, version, extensions and body of the
input request; only the URI is changed, to the redirect logic's output. -/
theorem redirect_outbound_frame (logic : RedirectLogic)
    (request req' : Request)
    (h : Redirect.outboundRequest logic request = some req') :
    req'.parts.method = request.parts.method ∧
    req'.parts.headers = request.parts.headers ∧
    req'.parts.version = request.parts.version ∧
    req'.parts.extensions = request.parts.extensions ∧
    req'.body = request.body ∧
    some req'.parts.uri = logic request.parts.uri := by
  unfold Redirect.outboundRequest at h
  cases hu : logic request.parts.uri with
  | some u => rw [hu] at h; cases h; simp [hu]
  | none => rw [hu] at h; cases h

/-- C10 witness: the frame condition at a concrete request under
`ChangeAuthority` logic. -/
theorem redirect_outbound_frame_witness :
    (⟨⟨"POST", ⟨some "http", some "new.example", "/x?y=2"⟩, 11,
        [("a", "b"), ("c", "d")], ["ext"]⟩, "body0"⟩ : Request).parts.method =
      (⟨⟨"POST", ⟨some "http", some "old.example", "/x?y=2"⟩, 11,
        [("a", "b"), ("c", "d")], ["ext"]⟩, "body0"⟩ : Request).parts.method ∧
    (⟨⟨"POST", ⟨some "http", some "new.example", "/x?y=2"⟩, 11,
        [("a", "b"), ("c", "d")], ["ext"]⟩, "body0"⟩ : Request).parts.headers =
      (⟨⟨"POST", ⟨some "http", some "old.example", "/x?y=2"⟩, 11,
        [("a", "b"), ("c", "d")], ["ext"]⟩, "body0"⟩ : Request).parts.headers ∧
    (⟨⟨"POST", ⟨some "http", some "new.example", "/x?y=2"⟩, 11,
        [("a", "b"), ("c", "d")], ["ext"]⟩, "body0"⟩ : Request).parts.version =
      (⟨⟨"POST", ⟨some "http", some "old.example", "/x?y=2"⟩, 11,
        [("a", "b"), ("c", "d")], ["ext"]⟩, "body0"⟩ : Request).parts.version ∧
    (⟨⟨"POST", ⟨some "http", some "new.example", "/x?y=2"⟩, 11,
        [("a", "b"), ("c", "d")], ["ext"]⟩, "body0"⟩ : Request).parts.extensions =
      (⟨⟨"POST", ⟨some "http", some "old.example", "/x?y=2"⟩, 11,
        [("a", "b"), ("c", "d")], ["ext"]⟩, "body0"⟩ : Request).parts.extensions ∧
    (⟨⟨"POST", ⟨some "http", some "new.example", "/x?y=2"⟩, 11,
        [("a", "b"), ("c", "d")], ["ext"]⟩, "body0"⟩ : Request).body =
      (⟨⟨"POST", ⟨some "http", some "old.example", "/x?y=2"⟩, 11,
        [("a", "b"), ("c", "d")], ["ext"]⟩, "body0"⟩ : Request).body ∧
    some (⟨⟨"POST", ⟨some "http", some "new.example", "/x?y=2"⟩, 11,
        [("a", "b"), ("c", "d")], ["ext"]⟩, "body0"⟩ : Request).parts.uri =
      ChangeAuthority.change_uri "new.example"
        (⟨⟨"POST", ⟨some "http", some "old.example", "/x?y=2"⟩, 11,
          [("a", "b"), ("c", "d")], ["ext"]⟩, "body0"⟩ : Request).parts.uri :=
  redirect_outbound_frame (ChangeAuthority.change_uri "new.example")
    ⟨⟨"POST", ⟨some "http", some "old.example", "/x?y=2"⟩, 11,
      [("a", "b"), ("c", "d")], ["ext"]⟩, "body0"⟩
    ⟨⟨"POST", ⟨some "http", some "new.example", "/x?y=2"⟩, 11,
      [("a", "b"), ("c", "d")], ["ext"]⟩, "body0"⟩ (by decide)

/-! ## Theorems about `AddrLookupFilter::filter` -/

/-- C1: the admission decision of `AddrLookupFilter` is
`is_blacklist XOR (address ∈ set)`: whitelist mode (`is_blacklist = false`)
admits an address iff it is in the set, blacklist mode
(`is_blacklist = true`) admits it iff it is not. -/
theorem addrLookupFilter_admission (f : AddrLookupFilter)
    (from_addr : SocketAddr) (request : Request) :
    f.filter from_addr request = (f.is_blacklist != decide (from_addr ∈ f.list)) ∧
    (f.is_blacklist = false →
      (f.filter from_addr request = true ↔ from_addr ∈ f.list)) ∧
    (f.is_blacklist = true →
      (f.filter from_addr request = true ↔ from_addr ∉ f.list)) := by
  have hc : f.list.contains from_addr = decide (from_addr ∈ f.list) := by simp
  refine ⟨?_, ?_, ?_⟩
  · simp [AddrLookupFilter.filter, hc]
  · intro hb
    simp [AddrLookupFilter.filter, hc, hb]
  · intro hb
    simp [AddrLookupFilter.filter, hc, hb]

/-- C1 witness: a whitelist containing 127.0.0.1:9000 admits that address,
and a blacklist containing it rejects it. -/
theorem addrLookupFilter_admission_witness :
    (AddrLookupFilter.filter ⟨[⟨127, 9000⟩], false⟩ ⟨127, 9000⟩
        ⟨⟨"GET", ⟨some "http", some "h", "/"⟩, 11, [], []⟩, ""⟩ = true ↔
      (⟨127, 9000⟩ : SocketAddr) ∈ [(⟨127, 9000⟩ : SocketAddr)]) ∧
    (AddrLookupFilter.filter ⟨[⟨127, 9000⟩], true⟩ ⟨127, 9000⟩
        ⟨⟨"GET", ⟨some "http", some "h", "/"⟩, 11, [], []⟩, ""⟩ = true ↔
      (⟨127, 9000⟩ : SocketAddr) ∉ [(⟨127, 9000⟩ : SocketAddr)]) :=
  ⟨(addrLookupFilter_admission ⟨[⟨127, 9000⟩], false⟩ ⟨127, 9000⟩
      ⟨⟨"GET", ⟨some "http", some "h", "/"⟩, 11, [], []⟩, ""⟩).2.1 rfl,
    (addrLookupFilter_admission ⟨[⟨127, 9000⟩], true⟩ ⟨127, 9000⟩
      ⟨⟨"GET", ⟨some "http", some "h", "/"⟩, 11, [], []⟩, ""⟩).2.2 rfl⟩

/-- C9: `AddrLookupFilter::filter` consults only the caller address:
for a fixed filter and address it returns the same boolean on any two
requests, and (being a pure function) repeated evaluations on the same
pair agree. -/
theorem addrLookupFilter_deterministic (f : AddrLookupFilter)
    (from_addr : SocketAddr) (r1 r2 : Request) :
    f.filter from_addr r1 = f.filter from_addr r2 ∧
    f.filter from_addr r1 = f.filter from_addr r1 :=
  ⟨rfl, rfl⟩

/-! ## Theorems about `Filter::handle` -/

/-- C2: on admission, `Filter::handle` delegates to the inner handler and
its outcome is the inner handler's outcome with the same suspension
behaviour: an `Ok` response is returned unchanged and an inner failure `e`
becomes `Err(FilterError::Inner(e))`, with no other modification. -/
theorem filter_handle_admitted {ε : Type} (filt : Filter ε)
    (from_addr : SocketAddr) (request : Request) (client : Client)
    (h : filt.logic from_addr request = true) :
    Filter.handle filt from_addr request client =
      .left ((filt.inner from_addr request client).map
        (fun res => res.mapError FilterError.Inner)) ∧
    eitherSuspensions (Filter.handle filt from_addr request client) =
      (filt.inner from_addr request client).suspensions ∧
    (∀ resp, (filt.inner from_addr request client).value = .ok resp →
      eitherValue (Filter.handle filt from_addr request client) = .ok resp) ∧
    (∀ e, (filt.inner from_addr request client).value = .error e →
      eitherValue (Filter.handle filt from_addr request client) =
        .error (.Inner e)) := by
  refine ⟨by simp [Filter.handle, h], by simp [Filter.handle, h, eitherSuspensions, Fut.map],
    ?_, ?_⟩
  · intro resp hv
    simp [Filter.handle, h, eitherValue, Fut.map, hv, Except.mapError]
  · intro e hv
    simp [Filter.handle, h, eitherValue, Fut.map, hv, Except.mapError]

/-- C2 witness: an admitted request with an inner handler that fails is
delegated and its failure comes back wrapped as `Inner`; with an inner
handler that succeeds, the response comes back unchanged. -/
theorem filter_handle_admitted_witness :
    eitherValue (Filter.handle
        (⟨fun _ _ _ => Fut.ready (.error ⟨"boom"⟩),
          fun a r => AddrLookupFilter.filter ⟨[⟨127, 9000⟩], false⟩ a r⟩ :
          Filter HyperError)
        ⟨127, 9000⟩ ⟨⟨"GET", ⟨some "http", some "h", "/"⟩, 11, [], []⟩, ""⟩
        ⟨fun _ => Fut.ready (.ok ⟨200, "ok"⟩)⟩) =
      .error (.Inner ⟨"boom"⟩) ∧
    eitherValue (Filter.handle
        (⟨fun _ r c => c.request r, fun a r =>
          AddrLookupFilter.filter ⟨[⟨127, 9000⟩], false⟩ a r⟩ :
          Filter HyperError)
        ⟨127, 9000⟩ ⟨⟨"GET", ⟨some "http", some "h", "/"⟩, 11, [], []⟩, ""⟩
        ⟨fun _ => Fut.ready (.ok ⟨200, "ok"⟩)⟩) =
      .ok ⟨200, "ok"⟩ := by
  refine ⟨(filter_handle_admitted _ _ _ _ (by decide)).2.2.2 ⟨"boom"⟩ rfl, ?_⟩
  exact (filter_handle_admitted
    (⟨fun _ r c => c.request r, fun a r =>
      AddrLookupFilter.filter ⟨[⟨127, 9000⟩], false⟩ a r⟩ : Filter HyperError)
    ⟨127, 9000⟩ ⟨⟨"GET", ⟨some "http", some "h", "/"⟩, 11, [], []⟩, ""⟩
    ⟨fun _ => Fut.ready (.ok ⟨200, "ok"⟩)⟩ (by decide)).2.2.1 ⟨200, "ok"⟩ rfl

/-- C3: on rejection, `Filter::handle` returns the right branch holding an
already-resolved (zero-suspension) future yielding
`Err(FilterError::FilteredOut(from_addr, request))`, and the result does
not depend on the inner handler — the inner handler is never invoked. -/
theorem filter_handle_rejected {ε : Type} (filt : Filter ε)
    (from_addr : SocketAddr) (request : Request) (client : Client)
    (h : filt.logic from_addr request = false) :
    Filter.handle filt from_addr request client =
      .right (Fut.ready (.error (.FilteredOut from_addr request))) ∧
    eitherSuspensions (Filter.handle filt from_addr request client) = 0 ∧
    eitherValue (Filter.handle filt from_addr request client) =
      .error (.FilteredOut from_addr request) ∧
    (∀ inner2, Filter.handle ⟨inner2, filt.logic⟩ from_addr request client =
      Filter.handle filt from_addr request client) := by
  refine ⟨by simp [Filter.handle, h],
    by simp [Filter.handle, h, eitherSuspensions, Fut.ready],
    by simp [Filter.handle, h, eitherValue, Fut.ready], ?_⟩
  intro inner2
  simp [Filter.handle, h]

/-- C3 witness: a request from an unlisted address against a whitelist is
rejected with an immediately ready `FilteredOut` future carrying the
address and the request. -/
theorem filter_handle_rejected_witness :
    Filter.handle
        (⟨fun _ _ _ => Fut.ready (.ok ⟨200, "ok"⟩),
          fun a r => AddrLookupFilter.filter ⟨[⟨127, 9000⟩], false⟩ a r⟩ :
          Filter HyperError)
        ⟨10, 1234⟩ ⟨⟨"GET", ⟨some "http", some "h", "/"⟩, 11, [], []⟩, ""⟩
        ⟨fun _ => Fut.ready (.ok ⟨200, "ok"⟩)⟩ =
      .right (Fut.ready (.error (.FilteredOut ⟨10, 1234⟩
        ⟨⟨"GET", ⟨some "http", some "h", "/"⟩, 11, [], []⟩, ""⟩))) ∧
    eitherSuspensions (Filter.handle
        (⟨fun _ _ _ => Fut.ready (.ok ⟨200, "ok"⟩),
          fun a r => AddrLookupFilter.filter ⟨[⟨127, 9000⟩], false⟩ a r⟩ :
          Filter HyperError)
        ⟨10, 1234⟩ ⟨⟨"GET", ⟨some "http", some "h", "/"⟩, 11, [], []⟩, ""⟩
        ⟨fun _ => Fut.ready (.ok ⟨200, "ok"⟩)⟩) = 0 :=
  ⟨(filter_handle_rejected _ _ _ _ (by decide)).1,
    (filter_handle_rejected _ _ _ _ (by decide)).2.1⟩

/-- C6: in the revision with a rejection callback, a rejected request with
a configured callback invokes the callback exactly once with the original
caller address and request; the returned failure is the ready
`FilteredOut` error regardless, and neither the returned value nor the
admission decision depends on the callback. -/
theorem filterV0_rejection_callback {ε : Type} (filt : FilterV0 ε)
    (from_addr : SocketAddr) (request : Request) (client : Client)
    (hcb : filt.handle_blocked.isSome)
    (h : filt.request_filter from_addr request = false) :
    (FilterV0.handle filt from_addr request client).2 = [(from_addr, request)] ∧
    (FilterV0.handle filt from_addr request client).1 =
      .right (Fut.ready (.error (.FilteredOut from_addr))) ∧
    (∀ cb2, (FilterV0.handle ⟨filt.inner, filt.request_filter, cb2⟩
        from_addr request client).1 =
      (FilterV0.handle filt from_addr request client).1) ∧
    (∀ cb2, (⟨filt.inner, filt.request_filter, cb2⟩ : FilterV0 ε).request_filter
        from_addr request =
      filt.request_filter from_addr request) := by
  obtain ⟨u, hu⟩ := Option.isSome_iff_exists.mp hcb
  refine ⟨by simp [FilterV0.handle, h, hu], by simp [FilterV0.handle, h, hu], ?_, ?_⟩
  · intro cb2
    cases cb2 <;> simp [FilterV0.handle, h, hu]
  · intro cb2
    rfl

/-- C6 witness: a blacklisted address with a configured callback triggers
exactly one callback invocation with the original address and request,
and the handler still resolves to the `FilteredOut` failure. -/
theorem filterV0_rejection_callback_witness :
    (FilterV0.handle
        (⟨fun _ _ _ => Fut.ready (.ok ⟨200, "ok"⟩),
          fun a r => AddrLookupFilter.filter ⟨[⟨10, 5⟩], true⟩ a r,
          some ()⟩ : FilterV0 HyperError)
        ⟨10, 5⟩ ⟨⟨"GET", ⟨some "http", some "h", "/"⟩, 11, [], []⟩, ""⟩
        ⟨fun _ => Fut.ready (.ok ⟨200, "ok"⟩)⟩).2 =
      [(⟨10, 5⟩, ⟨⟨"GET", ⟨some "http", some "h", "/"⟩, 11, [], []⟩, ""⟩)] ∧
    (FilterV0.handle
        (⟨fun _ _ _ => Fut.ready (.ok ⟨200, "ok"⟩),
          fun a r => AddrLookupFilter.filter ⟨[⟨10, 5⟩], true⟩ a r,
          some ()⟩ : FilterV0 HyperError)
        ⟨10, 5⟩ ⟨⟨"GET", ⟨some "http", some "h", "/"⟩, 11, [], []⟩, ""⟩
        ⟨fun _ => Fut.ready (.ok ⟨200, "ok"⟩)⟩).1 =
      .right (Fut.ready (.error (.FilteredOut ⟨10, 5⟩))) :=
  ⟨(filterV0_rejection_callback
      (⟨fun _ _ _ => Fut.ready (.ok ⟨200, "ok"⟩),
        fun a r => AddrLookupFilter.filter ⟨[⟨10, 5⟩], true⟩ a r,
        some ()⟩ : FilterV0 HyperError)
      ⟨10, 5⟩ ⟨⟨"GET", ⟨some "http", some "h", "/"⟩, 11, [], []⟩, ""⟩
      ⟨fun _ => Fut.ready (.ok ⟨200, "ok"⟩)⟩ rfl (by decide)).1,
    (filterV0_rejection_callback
      (⟨fun _ _ _ => Fut.ready (.ok ⟨200, "ok"⟩),
        fun a r => AddrLookupFilter.filter ⟨[⟨10, 5⟩], true⟩ a r,
        some ()⟩ : FilterV0 HyperError)
      ⟨10, 5⟩ ⟨⟨"GET", ⟨some "http", some "h", "/"⟩, 11, [], []⟩, ""⟩
      ⟨fun _ => Fut.ready (.ok ⟨200, "ok"⟩)⟩ rfl (by decide)).2.1⟩

end Proxylib
